import Mathlib

/-!
Shallow embedding of the region-geometry resolution and risk-overlay pipeline
of the nasahackathon dashboard (MapComponent / RegionDataPanel).  JavaScript
numbers are modelled as rationals (`ℚ`); the `Number.isFinite` guards of the
source are identity on rationals (every rational is finite) and are therefore
omitted.  `Math.round`, `Math.min`, `Math.max` and the JS `%` operator are
modelled explicitly below.
-/

namespace Terra

/-- JS `Math.round`: rounds half toward positive infinity, `⌊q + 1/2⌋`. -/
def jsRound (q : ℚ) : ℤ := ⌊q + 1/2⌋

/-- JS truncation toward zero, as used by the JS `%` operator. -/
def jsTrunc (q : ℚ) : ℤ := if 0 ≤ q then ⌊q⌋ else ⌈q⌉

/-- JS remainder `a % b`: `a - b * trunc(a / b)`; the result keeps the sign of
the dividend `a` (for `b ≠ 0`). -/
def jsMod (a b : ℚ) : ℚ := a - b * jsTrunc (a / b)

/-! ## Severity colors (`SEVERITY_COLORS` and the four classifier functions) -/

/-- Color `SEVERITY_COLORS.low`. -/
def colorLow : String := "#22c55e"
/-- Color `SEVERITY_COLORS.moderate`. -/
def colorModerate : String := "#eab308"
/-- Color `SEVERITY_COLORS.high`. -/
def colorHigh : String := "#f97316"
/-- Color `SEVERITY_COLORS.critical`. -/
def colorCritical : String := "#dc2626"

/-- Function `temperatureSeverityColor` from MapComponent: strict `<` thresholds. -/
def temperatureSeverityColor (temperature : ℚ) : String :=
  if temperature < 20 then colorLow
  else if temperature < 30 then colorModerate
  else if temperature < 40 then colorHigh
  else colorCritical

/-- Function `airQualitySeverityColor` from MapComponent: inclusive `<=` thresholds. -/
def airQualitySeverityColor (aqi : ℚ) : String :=
  if aqi ≤ 50 then colorLow
  else if aqi ≤ 100 then colorModerate
  else if aqi ≤ 200 then colorHigh
  else colorCritical

/-- Function `floodSeverityColor` from MapComponent: inclusive `<=` thresholds. -/
def floodSeverityColor (floodRisk : ℚ) : String :=
  if floodRisk ≤ 30 then colorLow
  else if floodRisk ≤ 60 then colorModerate
  else if floodRisk ≤ 80 then colorHigh
  else colorCritical

/-- Function `combinedRiskSeverityColor` from MapComponent. -/
def combinedRiskSeverityColor (riskScore : ℚ) : String :=
  if riskScore ≤ 30 then colorLow
  else if riskScore ≤ 50 then colorModerate
  else if riskScore ≤ 70 then colorHigh
  else colorCritical

/-! ## Risk scorers -/

/-- The `tempRisk` bucketing inside `calculateUrbanRiskScore`. -/
def tempRisk (temp : ℚ) : ℚ :=
  if temp > 35 then 100 else if temp > 30 then 80 else if temp > 25 then 50
  else if temp > 20 then 30 else 20

/-- The `aqiRisk` bucketing inside `calculateUrbanRiskScore`. -/
def aqiRisk (aqi : ℚ) : ℚ :=
  if aqi > 200 then 100 else if aqi > 150 then 80 else if aqi > 100 then 60
  else if aqi > 50 then 40 else 20

/-- Function `calculateUrbanRiskScore` from MapComponent:
`Math.round(tempRisk*0.25 + aqiRisk*0.25 + flood*0.5)`. -/
def calculateUrbanRiskScore (temp aqi flood : ℚ) : ℤ :=
  jsRound (tempRisk temp * (25/100) + aqiRisk aqi * (25/100) + flood * (50/100))

/-- Function `getCombinedRiskScore` from RegionDataPanel:
`tempScore = Math.min(100, Math.max(0, ((temp-10)/30)*100))`,
`aqiScore = Math.min(100, (aqi/200)*100)`,
`floodScore = Math.min(100, flood)`,
result `Math.round(tempScore*0.3 + aqiScore*0.35 + floodScore*0.35)`. -/
def getCombinedRiskScore (temp aqi flood : ℚ) : ℤ :=
  let tempScore := min 100 (max 0 ((temp - 10) / 30 * 100))
  let aqiScore := min 100 (aqi / 200 * 100)
  let floodScore := min 100 flood
  jsRound (tempScore * (3/10) + aqiScore * (35/100) + floodScore * (35/100))

/-! ## Overlay state projection -/

/-- Type `OverlayType` from MapComponent. -/
inductive OverlayType where
  | noOverlay
  | temperature
  | airQuality
  | flood
  | combined
deriving DecidableEq, Repr

/-- The three overlay metrics snapshot (`overlayMetrics` react state). -/
structure OverlayMetrics where
  temperature : ℚ
  airQuality : ℚ
  floodRisk : ℚ
deriving DecidableEq, Repr

/-- Function `overlayFillColor` from MapComponent: routes the active overlay selection
to the matching severity color; the `combined` case feeds
`calculateUrbanRiskScore` into `combinedRiskSeverityColor`. -/
def overlayFillColor (activeOverlay : OverlayType)
    (overlayMetrics : Option OverlayMetrics) : Option String :=
  match overlayMetrics with
  | Option.none => Option.none
  | some m =>
    match activeOverlay with
    | .temperature => some (temperatureSeverityColor m.temperature)
    | .airQuality => some (airQualitySeverityColor m.airQuality)
    | .flood => some (floodSeverityColor m.floodRisk)
    | .combined => some (combinedRiskSeverityColor
        ((calculateUrbanRiskScore m.temperature m.airQuality m.floodRisk : ℤ) : ℚ))
    | .noOverlay => Option.none

/-! ## Coordinate normalization (`handleMapClick` entry) -/

/-- The coordinate normalization at the top of `handleMapClick`:
`lat ↦ Math.max(-90, Math.min(90, lat))` and
`lng ↦ ((lng + 180) % 360) - 180` with the JS `%` operator. -/
def normalizeCoords (lat lng : ℚ) : ℚ × ℚ :=
  (max (-90) (min 90 lat), jsMod (lng + 180) 360 - 180)

/-! ## GeoJSON model

A feature's `geometry.type` string is modelled by `GeomType`; a feature's
coordinates and properties payload, which the sanitizer passes through
untouched, is represented by an opaque `tag`.  A `FeatureCollection` is
modelled by its list of features; the sanitizer's input
(`Feature | FeatureCollection | null`) by `GeoInput`. -/

/-- The GeoJSON `geometry.type` values. -/
inductive GeomType where
  | point
  | multiPoint
  | lineString
  | multiLineString
  | polygon
  | multiPolygon
  | geometryCollection
deriving DecidableEq, Repr

/-- A GeoJSON feature: `geometry` may be null; `tag` stands for the feature's
coordinates/properties payload, carried through unchanged by filtering. -/
structure Feature where
  tag : ℕ
  geometry : Option GeomType
deriving DecidableEq, Repr

/-- The sanitizer's input type `Feature | FeatureCollection | null`. -/
inductive GeoInput where
  | nullInput
  | feature (f : Feature)
  | collection (features : List Feature)
deriving DecidableEq, Repr

/-- The `isPolygonOrMultiPolygon` predicate inside `sanitizeFeatureCollection`:
`feature.geometry && (type === 'Polygon' || type === 'MultiPolygon')`. -/
def isPolygonOrMultiPolygon (f : Feature) : Bool :=
  match f.geometry with
  | some GeomType.polygon => true
  | some GeomType.multiPolygon => true
  | _ => false

/-- Function `sanitizeFeatureCollection` from MapComponent: null passes through as null;
a FeatureCollection is filtered to polygon-kind features (null if none
remain); a single polygon-kind feature is wrapped alone; anything else is
null.  The result FeatureCollection is modelled by its features list. -/
def sanitizeFeatureCollection : GeoInput → Option (List Feature)
  | GeoInput.nullInput => Option.none
  | GeoInput.collection fs =>
    let polygonFeatures := fs.filter isPolygonOrMultiPolygon
    if polygonFeatures.isEmpty then Option.none else some polygonFeatures
  | GeoInput.feature f =>
    if isPolygonOrMultiPolygon f then some [f] else Option.none

/-- The sanitizer as the specification words it, for the refinement claim:
"a FeatureCollection containing exactly the Polygon/MultiPolygon features of
the input", "the single feature wrapped alone when the input is one
polygon-kind Feature", "null in every other case, including when the filtered
list is empty". -/
def sanitizeSpec : GeoInput → Option (List Feature)
  | GeoInput.nullInput => Option.none
  | GeoInput.collection fs =>
    match fs.filter isPolygonOrMultiPolygon with
    | [] => Option.none
    | f :: rest => some (f :: rest)
  | GeoInput.feature f =>
    if isPolygonOrMultiPolygon f then some [f] else Option.none

/-! ## Bounding boxes -/

/-- Canonical bounding box `(south, west, north, east)` in degrees. -/
abbrev BBox := ℚ × ℚ × ℚ × ℚ

/-- Helper `parseNumericArray` inside `extractBoundsFromResponse`: requires a
length-4 array whose entries all convert to numbers (an entry `none` models a
value whose `Number(...)` conversion is NaN). -/
def parseNumericArray (bbox : List (Option ℚ)) : Option (List ℚ) :=
  if bbox.length = 4 then
    if bbox.all Option.isSome then some (bbox.filterMap (fun x => x))
    else Option.none
  else Option.none

/-- Helper `parseGeoJsonBbox`: GeoJSON order `[minLon, minLat, maxLon, maxLat]`
reordered into canonical `[south=minLat, west=minLon, north=maxLat,
east=maxLon]`. -/
def parseGeoJsonBbox (bbox : List (Option ℚ)) : Option BBox :=
  match parseNumericArray bbox with
  | some [minLon, minLat, maxLon, maxLat] => some (minLat, minLon, maxLat, maxLon)
  | _ => Option.none

/-- Helper `parseNominatimBbox`: Nominatim order `[south, north, west, east]`
reordered into canonical `[south, west, north, east]`. -/
def parseNominatimBbox (bbox : List (Option ℚ)) : Option BBox :=
  match parseNumericArray bbox with
  | some [south, north, west, east] => some (south, west, north, east)
  | _ => Option.none

/-- Function `buildBoundsFeatureCollection`: synthesizes a rectangle polygon
FeatureCollection from a bounding box (the ring coordinates live in the
feature's opaque payload; what matters downstream is that the feature is
polygon-kind). -/
def buildBoundsFeatureCollection (_b : BBox) : List Feature :=
  [{ tag := 0, geometry := some GeomType.polygon }]

/-! ## Water-mask fetcher (`fetchWaterGeometry`)

The network call and JSON parse are modelled by an oracle
`Except Unit (Option (List Feature))`: `error` is a network or parse failure,
`ok none` a response without a `features` array, `ok (some fs)` a response
with features `fs`.  The result records whether the network query was issued
(first component) and the water geometry that would be stored via
`setWaterGeometry` (second component). -/
def fetchWaterGeometry : BBox → Except Unit (Option (List Feature)) →
    Bool × Option (List Feature)
  | (south, west, north, east), fetchResult =>
  if (north - south) * (east - west) > 100 then (false, Option.none)
  else
    match fetchResult with
    | Except.error _ => (true, Option.none)
    | Except.ok Option.none => (true, Option.none)
    | Except.ok (some fs) =>
      if fs.length > 0 then
        let polygonFeatures := fs.filter isPolygonOrMultiPolygon
        if polygonFeatures.length > 0 then (true, some polygonFeatures)
        else (true, Option.none)
      else (true, Option.none)

/-! ## Geometry resolver (`fetchCountryGeometry` / `fetchGeometryByName`)

Network calls are modelled by oracles.  A reverse- or forward-geocode request
yields `Except Unit RevResponse`: `error` covers a network failure, a non-2xx
status, or a JSON parse failure (all of which throw before any state is
touched in the source); `ok r` carries the parsed body `r.body` (fed to
`sanitizeFeatureCollection`, as `parseGeoJsonResponse` does), the display name
`r.name` that `parseGeoJsonResponse`/`getFeatureCountryName` extracts, and the
bounding box `r.bounds` that `extractBoundsFromResponse` extracts. -/
structure RevResponse where
  body : GeoInput
  name : Option String
  bounds : Option BBox

/-- The result record of `fetchGeometryByName`, extended with the geometry it
applied via `applyRegionGeometry` (if any). -/
structure NameFetchOutcome where
  success : Bool
  countryName : Option String
  bounds : Option BBox
  applied : Option (List Feature)
deriving Repr

/-- Function `fetchGeometryByName` from MapComponent: no name means immediate failure;
otherwise forward-geocode the name; on polygon geometry apply it, else on a
bounding box apply a synthetic rectangle (which always sanitizes to a polygon
FeatureCollection, so `applyRegionGeometry` returns true); a thrown error or
a response with neither geometry nor bounds yields failure. -/
def fetchGeometryByName (searchResp : String → Except Unit RevResponse)
    (countryName : Option String) (fallbackBounds : Option BBox) :
    NameFetchOutcome :=
  match countryName with
  | Option.none => ⟨false, Option.none, Option.none, Option.none⟩
  | some n =>
    match searchResp n with
    | Except.error _ => ⟨false, some n, fallbackBounds, Option.none⟩
    | Except.ok r =>
      let boundsFromResponse := r.bounds.orElse (fun _ => fallbackBounds)
      match sanitizeFeatureCollection r.body with
      | some fc => ⟨true, some n, boundsFromResponse, some fc⟩
      | Option.none =>
        match boundsFromResponse with
        | some b => ⟨true, some n, some b, some (buildBoundsFeatureCollection b)⟩
        | Option.none => ⟨false, some n, fallbackBounds, Option.none⟩

/-- The zoom levels tried by `fetchCountryGeometry`, most specific first. -/
def zoomLevels : List ℕ := [14, 12, 10, 8]

/-- The reverse-geocoding loop of `fetchCountryGeometry` over the remaining
zoom levels.  State threaded exactly as in the source: the first extracted
name wins (`countryName = countryName || extractedName`), `lastBounds` is
updated to `extractBounds(data) ?? lastBounds` on a non-throwing attempt and
left unchanged on a thrown one.  Returns the zoom levels attempted in order,
the accumulated name and lastBounds, and — when some level's response
sanitized to polygon geometry — the applied geometry with the bounds returned
alongside it. -/
def cascadeLoop (revResp : ℕ → Except Unit RevResponse) :
    List ℕ → Option String → Option BBox →
    List ℕ × Option String × Option BBox × Option (List Feature × Option BBox)
  | [], name, lastBounds => ([], name, lastBounds, Option.none)
  | zoom :: rest, name, lastBounds =>
    match revResp zoom with
    | Except.error _ =>
      let res := cascadeLoop revResp rest name lastBounds
      (zoom :: res.1, res.2.1, res.2.2.1, res.2.2.2)
    | Except.ok r =>
      let boundsFromResponse := r.bounds.orElse (fun _ => lastBounds)
      let name' := name.orElse (fun _ => r.name)
      match sanitizeFeatureCollection r.body with
      | some fc => ([zoom], name', boundsFromResponse, some (fc, boundsFromResponse))
      | Option.none =>
        let res := cascadeLoop revResp rest name' boundsFromResponse
        (zoom :: res.1, res.2.1, res.2.2.1, res.2.2.2)

/-- The result record of `fetchCountryGeometry`, extended with the list of
zoom levels actually queried and the geometry applied (if any). -/
structure ResolverOutcome where
  attempted : List ℕ
  success : Bool
  countryName : Option String
  bounds : Option BBox
  applied : Option (List Feature)

/-- Function `fetchCountryGeometry` from MapComponent: run the reverse-geocode cascade
over `zoomLevels`; on a hit return success with that geometry; otherwise, if
no name was extracted, try one coarse zoom-3 reverse geocode for a name
(`coarseResp`), then fall back to `fetchGeometryByName`. -/
def fetchCountryGeometry (revResp : ℕ → Except Unit RevResponse)
    (coarseResp : Except Unit (Option String))
    (searchResp : String → Except Unit RevResponse)
    (fallbackBounds : Option BBox) : ResolverOutcome :=
  let loopRes := cascadeLoop revResp zoomLevels Option.none fallbackBounds
  match loopRes.2.2.2 with
  | some (fc, boundsFromResponse) =>
    ⟨loopRes.1, true, loopRes.2.1, boundsFromResponse, some fc⟩
  | Option.none =>
    let countryName :=
      match loopRes.2.1 with
      | some n => some n
      | Option.none =>
        match coarseResp with
        | Except.ok n => n
        | Except.error _ => Option.none
    let nameResult := fetchGeometryByName searchResp countryName
        (fallbackBounds.orElse (fun _ => loopRes.2.2.1))
    ⟨loopRes.1, nameResult.success,
      nameResult.countryName.orElse (fun _ => countryName),
      (nameResult.bounds.orElse (fun _ => fallbackBounds)).orElse
        (fun _ => loopRes.2.2.1),
      nameResult.applied⟩

/-- A zoom level "hits" when its reverse-geocode response arrives without a
thrown error and its body sanitizes to polygon geometry. -/
def zoomHit (revResp : ℕ → Except Unit RevResponse) (zoom : ℕ) : Bool :=
  match revResp zoom with
  | Except.error _ => false
  | Except.ok r => (sanitizeFeatureCollection r.body).isSome

/-- The elements of a list up to and including the first one satisfying `p`
(the whole list when none does): the query pattern of a short-circuiting
cascade. -/
def takeThroughFirst (p : ℕ → Bool) : List ℕ → List ℕ
  | [] => []
  | z :: rest => if p z then [z] else z :: takeThroughFirst p rest

/-! ## Selection lifecycle state machine (`handleMapClick` / search effect)

The React state relevant to a selection, with each stored payload replaced by
the id of the selection whose fetch produced it (provenance tags).  Events are
the synchronous prefix of a selection handler (`start`) and the continuations
that run when its asynchronous fetches settle; the source applies those
continuations unconditionally — there is no staleness check — which the step
function mirrors. -/
structure SelState where
  geometry : Option ℕ
  highlight : Option ℕ
  water : Option ℕ
  name : Option ℕ
  metrics : Option ℕ
deriving DecidableEq, Repr

/-- Events in a selection's lifecycle, tagged by the selection id `s` that
initiated the underlying handler or fetch. -/
inductive SelEvent where
  | start (s : ℕ)
  | geomSuccess (s : ℕ)
  | geomFailure (s : ℕ)
  | waterArrive (s : ℕ)
  | metricsArrive (s : ℕ)
deriving DecidableEq, Repr

/-- The selection id carried by an event. -/
def SelEvent.sel : SelEvent → ℕ
  | .start s => s
  | .geomSuccess s => s
  | .geomFailure s => s
  | .waterArrive s => s
  | .metricsArrive s => s

/-- One state update.  `start s` is the synchronous prefix of
`handleMapClick`/the search effect: `setSelectedCountryGeometry(null)`,
`setHighlightCircle(null)`, `setWaterGeometry(null)`, the stub
`setClickedLocation`, `setOverlayMetrics(null)`.  `geomSuccess s` is
`applyRegionGeometry` on s's resolved geometry (sets the geometry, clears the
highlight circle); `geomFailure s` is the `setHighlightCircle` fallback;
`waterArrive s` is `setWaterGeometry`; `metricsArrive s` is the
`setOverlayMetrics`/`setClickedLocation` continuation after `fetchApiData`.
None of the asynchronous continuations checks whether `s` is still the
current selection. -/
def selStep (st : SelState) (e : SelEvent) : SelState :=
  match e with
  | .start s =>
    { geometry := Option.none, highlight := Option.none, water := Option.none,
      name := some s, metrics := Option.none }
  | .geomSuccess s => { st with geometry := some s, highlight := Option.none }
  | .geomFailure s => { st with highlight := some s }
  | .waterArrive s => { st with water := some s }
  | .metricsArrive s => { st with metrics := some s, name := some s }

/-- The initial (no selection yet) state. -/
def selInit : SelState :=
  ⟨Option.none, Option.none, Option.none, Option.none, Option.none⟩

/-- Run a trace of events. -/
def runSel (t : List SelEvent) : SelState := t.foldl selStep selInit

/-- A trace is valid when every asynchronous event belongs to a selection
that was started earlier in the trace (a fetch can only settle after the
handler that issued it began). -/
def validFrom (started : List ℕ) : List SelEvent → Bool
  | [] => true
  | SelEvent.start s :: rest => validFrom (s :: started) rest
  | e :: rest => started.contains e.sel && validFrom started rest

/-- The id of the most recently started selection in a trace. -/
def lastStarted (t : List SelEvent) : Option ℕ :=
  (t.filterMap fun e =>
    match e with
    | SelEvent.start s => some s
    | _ => Option.none).getLast?

/-- The property claimed of the selection lifecycle: after any valid trace
whose most recent selection is `b`, every displayed piece of state belongs to
`b` (never to a superseded selection). -/
def staleNeverApplied : Prop :=
  ∀ (t : List SelEvent) (b : ℕ), validFrom [] t = true → lastStarted t = some b →
    ((runSel t).geometry = Option.none ∨ (runSel t).geometry = some b) ∧
    ((runSel t).name = Option.none ∨ (runSel t).name = some b) ∧
    ((runSel t).metrics = Option.none ∨ (runSel t).metrics = some b)

/-! ## Theorems -/

/-- C7: the severity classifiers honor their exact boundary semantics:
temperature 20.0 is moderate (not low), 29.999 moderate, 30.0 high (strict
`<` thresholds); AQI 50 low and 51 moderate, flood 30 low and 31 moderate
(inclusive `<=` thresholds). -/
theorem severity_classifier_boundaries :
    temperatureSeverityColor 20 = colorModerate ∧
    colorModerate ≠ colorLow ∧
    temperatureSeverityColor (29999/1000) = colorModerate ∧
    temperatureSeverityColor 30 = colorHigh ∧
    airQualitySeverityColor 50 = colorLow ∧
    airQualitySeverityColor 51 = colorModerate ∧
    floodSeverityColor 30 = colorLow ∧
    floodSeverityColor 31 = colorModerate := by
  refine ⟨?_, by decide, ?_, ?_, ?_, ?_, ?_, ?_⟩ <;>
    norm_num [temperatureSeverityColor, airQualitySeverityColor,
      floodSeverityColor]

/-- C8: the urban planning risk score is a two-stage bucket-then-weight
transform: temperature buckets into {20,30,50,80,100}, AQI into
{20,40,60,80,100}, the score is `round(tempRisk*0.25 + aqiRisk*0.25 +
flood*0.5)`, and `score(36, 210, 90) = 95 = round(100*0.25 + 100*0.25 +
90*0.5)`. -/
theorem urban_risk_bucket_then_weight :
    (∀ t : ℚ, tempRisk t = 20 ∨ tempRisk t = 30 ∨ tempRisk t = 50 ∨
      tempRisk t = 80 ∨ tempRisk t = 100) ∧
    (∀ a : ℚ, aqiRisk a = 20 ∨ aqiRisk a = 40 ∨ aqiRisk a = 60 ∨
      aqiRisk a = 80 ∨ aqiRisk a = 100) ∧
    (∀ t a f : ℚ, calculateUrbanRiskScore t a f =
      jsRound (tempRisk t * (25/100) + aqiRisk a * (25/100) + f * (50/100))) ∧
    calculateUrbanRiskScore 36 210 90 = 95 ∧
    jsRound ((100 : ℚ) * (25/100) + 100 * (25/100) + 90 * (50/100)) = 95 := by
  refine ⟨?_, ?_, fun t a f => rfl, ?_, ?_⟩
  · intro t; unfold tempRisk; split_ifs <;> simp
  · intro a; unfold aqiRisk; split_ifs <;> simp
  · norm_num [calculateUrbanRiskScore, tempRisk, aqiRisk, jsRound]
  · norm_num [jsRound]

/-- C9: bounding-box extraction reorders each upstream format into canonical
`[south, west, north, east]`: GeoJSON `[minLon, minLat, maxLon, maxLat]`
becomes `[minLat, minLon, maxLat, maxLon]`, Nominatim `[south, north, west,
east]` becomes `[south, west, north, east]`; in particular `[10,20,30,40]`
(GeoJSON) and `[20,40,10,30]` (Nominatim) both map to `(20,10,40,30)`. -/
theorem bbox_reordering :
    (∀ a b c d : ℚ,
      parseGeoJsonBbox [some a, some b, some c, some d] = some (b, a, d, c)) ∧
    (∀ a b c d : ℚ,
      parseNominatimBbox [some a, some b, some c, some d] = some (a, c, b, d)) ∧
    parseGeoJsonBbox [some 10, some 20, some 30, some 40]
      = some (20, 10, 40, 30) ∧
    parseNominatimBbox [some 20, some 40, some 10, some 30]
      = some (20, 10, 40, 30) := by
  refine ⟨fun a b c d => rfl, fun a b c d => rfl, rfl, rfl⟩

/-- C1 counterexample: with overlay metrics `(temp=28, aqi=120, flood=40)`
present and the `combined` overlay active, the rendered fill color is the
moderate color (from the bucketed urban risk score 48), whereas the
combined/composite 30/35/35 score (53) would give the high color — so the
fill is NOT derived from the combined/composite risk score. -/
theorem combined_overlay_color_counterexample :
    overlayFillColor OverlayType.combined (some ⟨28, 120, 40⟩)
      = some colorModerate ∧
    combinedRiskSeverityColor ((getCombinedRiskScore 28 120 40 : ℤ) : ℚ)
      = colorHigh ∧
    colorModerate ≠ colorHigh ∧
    calculateUrbanRiskScore 28 120 40 = 48 ∧
    getCombinedRiskScore 28 120 40 = 53 := by
  refine ⟨?_, ?_, by decide, ?_, ?_⟩ <;>
    norm_num [overlayFillColor, combinedRiskSeverityColor,
      calculateUrbanRiskScore, getCombinedRiskScore, tempRisk, aqiRisk, jsRound]

/-- C1 (amended): when the active overlay is `combined` and metrics are
present, the fill color is derived from the bucketed urban planning risk
score (`calculateUrbanRiskScore`, 25/25/50 bucket-then-weight) routed through
the combined-risk severity color scale — not from the smooth 30/35/35
combined/composite score. -/
theorem combined_overlay_uses_urban_score :
    ∀ m : OverlayMetrics,
      overlayFillColor OverlayType.combined (some m) =
        some (combinedRiskSeverityColor
          ((calculateUrbanRiskScore m.temperature m.airQuality m.floodRisk : ℤ) : ℚ)) :=
  fun _ => rfl

/-- JS `Math.round` maps a nonnegative argument to a nonnegative integer. -/
lemma jsRound_nonneg {q : ℚ} (h : 0 ≤ q) : 0 ≤ jsRound q := by
  unfold jsRound
  exact Int.le_floor.mpr (by push_cast; linarith)

/-- JS `Math.round` of a value at most 100 is at most 100. -/
lemma jsRound_le_hundred {q : ℚ} (h : q ≤ 100) : jsRound q ≤ 100 := by
  unfold jsRound
  have hle := Int.floor_le (q + 1/2)
  have : ((⌊q + 1/2⌋ : ℤ) : ℚ) < 101 := lt_of_le_of_lt hle (by linarith)
  exact_mod_cast Int.lt_add_one_iff.mp (by exact_mod_cast this)

/-- C3 counterexample: the inputs `temp = -50 ∈ [-50,100]`, `aqi = 0 ∈
[0,1000]`, `flood = -50 ∈ [-50,200]` are all inside the claimed ranges, yet
`getCombinedRiskScore` returns `-17 ∉ [0,100]`: the code clamps flood only
from above (`Math.min(100, flood)`), never from below. -/
theorem combined_score_range_counterexample :
    (-50 ≤ (-50 : ℚ) ∧ (-50 : ℚ) ≤ 100) ∧
    (0 ≤ (0 : ℚ) ∧ (0 : ℚ) ≤ 1000) ∧
    (-50 ≤ (-50 : ℚ) ∧ (-50 : ℚ) ≤ 200) ∧
    getCombinedRiskScore (-50) 0 (-50) = -17 ∧
    ¬ (0 ≤ getCombinedRiskScore (-50) 0 (-50)) := by
  have hval : getCombinedRiskScore (-50) 0 (-50) = -17 := by
    norm_num [getCombinedRiskScore, jsRound]
  refine ⟨⟨by norm_num, by norm_num⟩, ⟨by norm_num, by norm_num⟩,
    ⟨by norm_num, by norm_num⟩, hval, ?_⟩
  rw [hval]; norm_num

/-- C3 (amended): for every temperature in `[-50,100]`, AQI in `[0,1000]` and
flood in `[0,200]` (nonnegative flood: the code clamps flood only from
above), the combined/composite risk score lies in `[0,100]`. -/
theorem combined_score_range (t a f : ℚ)
    (ht : -50 ≤ t) (ht' : t ≤ 100) (ha : 0 ≤ a) (ha' : a ≤ 1000)
    (hf : 0 ≤ f) (hf' : f ≤ 200) :
    0 ≤ getCombinedRiskScore t a f ∧ getCombinedRiskScore t a f ≤ 100 := by
  unfold getCombinedRiskScore
  have h1 : (0 : ℚ) ≤ min 100 (max 0 ((t - 10) / 30 * 100)) :=
    le_min (by norm_num) (le_max_left _ _)
  have h2 : min 100 (max 0 ((t - 10) / 30 * 100)) ≤ 100 := min_le_left _ _
  have h3 : (0 : ℚ) ≤ min 100 (a / 200 * 100) :=
    le_min (by norm_num) (by positivity)
  have h4 : min 100 (a / 200 * 100) ≤ 100 := min_le_left _ _
  have h5 : (0 : ℚ) ≤ min 100 f := le_min (by norm_num) hf
  have h6 : min 100 f ≤ 100 := min_le_left _ _
  exact ⟨jsRound_nonneg (by linarith), jsRound_le_hundred (by linarith)⟩

/-- Witness for C3 (amended) at `(temp, aqi, flood) = (25, 100, 50)`. -/
theorem combined_score_range_witness :
    (-50 ≤ (25 : ℚ) ∧ (25 : ℚ) ≤ 100 ∧ 0 ≤ (100 : ℚ) ∧ (100 : ℚ) ≤ 1000 ∧
      0 ≤ (50 : ℚ) ∧ (50 : ℚ) ≤ 200) ∧
    (0 ≤ getCombinedRiskScore 25 100 50 ∧ getCombinedRiskScore 25 100 50 ≤ 100) :=
  ⟨⟨by decide, by decide, by decide, by decide, by decide, by decide⟩,
    combined_score_range 25 100 50 (by decide) (by decide) (by decide)
      (by decide) (by decide) (by decide)⟩

/-- The JS remainder by 360 leaves any value in `(-360, 360)` unchanged. -/
lemma jsMod_eq_self {a : ℚ} (h1 : -360 < a) (h2 : a < 360) :
    jsMod a 360 = a := by
  unfold jsMod jsTrunc
  rcases le_or_lt 0 (a / 360) with h | h
  · rw [if_pos h]
    have h0 : ⌊a / 360⌋ = 0 := by
      rw [Int.floor_eq_zero_iff, Set.mem_Ico]
      exact ⟨h, (div_lt_one (by norm_num)).mpr h2⟩
    rw [h0]; push_cast; ring
  · rw [if_neg (not_le.mpr h)]
    have h0 : ⌈a / 360⌉ = 0 := by
      rw [Int.ceil_eq_zero_iff, Set.mem_Ioc]
      exact ⟨(lt_div_iff (by norm_num)).mpr (by linarith), h.le⟩
    rw [h0]; push_cast; ring

/-- The JS remainder by 360 always lands strictly inside `(-360, 360)`. -/
lemma jsMod_range (a : ℚ) : -360 < jsMod a 360 ∧ jsMod a 360 < 360 := by
  unfold jsMod jsTrunc
  rcases le_or_lt 0 (a / 360) with h | h
  · rw [if_pos h]
    have hf1 : ((⌊a / 360⌋ : ℤ) : ℚ) ≤ a / 360 := Int.floor_le _
    have hf2 : a / 360 < (⌊a / 360⌋ : ℤ) + 1 := Int.lt_floor_add_one _
    constructor <;> nlinarith [hf1, hf2]
  · rw [if_neg (not_le.mpr h)]
    have hc1 : a / 360 ≤ ((⌈a / 360⌉ : ℤ) : ℚ) := Int.le_ceil _
    have hc2 : ((⌈a / 360⌉ : ℤ) : ℚ) < a / 360 + 1 := Int.ceil_lt_add_one _
    constructor <;> nlinarith [hc1, hc2]

/-- C4: the map-click coordinate normalization evaluated against the claim:
the example `normalize(95, 185) = (90, -175)` holds, latitude is always
clamped into `[-90, 90]`, and normalization is idempotent — but at the
failing input `(lat=0, lng=-190)` the longitude comes back as `-190`, outside
`[-180, 180]`: the JS `%` keeps the dividend's sign, so longitudes below
`-180` are not wrapped, contradicting the code's own comment. -/
theorem normalize_coords_evaluation :
    normalizeCoords 95 185 = (90, -175) ∧
    (∀ lat lng : ℚ, -90 ≤ (normalizeCoords lat lng).1 ∧
      (normalizeCoords lat lng).1 ≤ 90) ∧
    (∀ lat lng : ℚ,
      normalizeCoords (normalizeCoords lat lng).1 (normalizeCoords lat lng).2
        = normalizeCoords lat lng) ∧
    (normalizeCoords 0 (-190)).2 = -190 ∧
    ¬ (-180 ≤ (normalizeCoords 0 (-190)).2) := by
  have harg : ((-190 : ℚ) + 180) = -10 := by norm_num
  have hm : jsMod ((-190 : ℚ) + 180) 360 = -10 := by
    rw [harg]; exact jsMod_eq_self (by norm_num) (by norm_num)
  refine ⟨?_, ?_, ?_, ?_, ?_⟩
  · norm_num [normalizeCoords, jsMod, jsTrunc]
  · intro lat lng
    exact ⟨le_max_left _ _, max_le (by norm_num) (min_le_left _ _)⟩
  · intro lat lng
    unfold normalizeCoords
    have hlat : max (-90 : ℚ) (min 90 (max (-90) (min 90 lat)))
        = max (-90) (min 90 lat) := by
      have hub : max (-90 : ℚ) (min 90 lat) ≤ 90 :=
        max_le (by norm_num) (min_le_left _ _)
      rw [min_eq_right hub, max_eq_right (le_max_left _ _)]
    have hrange := jsMod_range (lng + 180)
    have hlng : jsMod (jsMod (lng + 180) 360 - 180 + 180) 360
        = jsMod (lng + 180) 360 := by
      rw [sub_add_cancel]
      exact jsMod_eq_self hrange.1 hrange.2
    rw [Prod.mk.injEq]
    exact ⟨hlat, by rw [hlng]⟩
  · show jsMod ((-190 : ℚ) + 180) 360 - 180 = -190
    rw [hm]; norm_num
  · show ¬ (-180 ≤ jsMod ((-190 : ℚ) + 180) 360 - 180)
    rw [hm]; norm_num

/-- C6: the sanitizer is total (a total Lean function by construction) and
pure, agrees with the specification's description (`sanitizeSpec`), returns
exactly the polygon-kind features of a collection (null when none remain), a
collection with one Polygon and one LineString yields exactly the Polygon,
null/empty/LineString-only inputs yield null, and a single polygon-kind
feature is wrapped alone. -/
theorem sanitizer_totality_and_filtering :
    (∀ input : GeoInput, sanitizeFeatureCollection input = sanitizeSpec input) ∧
    (∀ (input : GeoInput) (fc : List Feature),
      sanitizeFeatureCollection input = some fc →
        fc ≠ [] ∧ ∀ f ∈ fc, isPolygonOrMultiPolygon f = true) ∧
    (∀ fs : List Feature,
      sanitizeFeatureCollection (GeoInput.collection fs) =
        if fs.filter isPolygonOrMultiPolygon = [] then Option.none
        else some (fs.filter isPolygonOrMultiPolygon)) ∧
    sanitizeFeatureCollection (GeoInput.collection
        [⟨0, some GeomType.polygon⟩, ⟨1, some GeomType.lineString⟩])
      = some [⟨0, some GeomType.polygon⟩] ∧
    sanitizeFeatureCollection GeoInput.nullInput = Option.none ∧
    sanitizeFeatureCollection (GeoInput.collection []) = Option.none ∧
    sanitizeFeatureCollection (GeoInput.collection [⟨0, some GeomType.lineString⟩])
      = Option.none ∧
    (∀ f : Feature, isPolygonOrMultiPolygon f = true →
      sanitizeFeatureCollection (GeoInput.feature f) = some [f]) := by
  refine ⟨?_, ?_, ?_, by decide, by decide, by decide, by decide, ?_⟩
  · intro input
    cases input with
    | nullInput => rfl
    | feature f => rfl
    | collection fs =>
      cases h : fs.filter isPolygonOrMultiPolygon with
      | nil => simp [sanitizeFeatureCollection, sanitizeSpec, h]
      | cons f rest => simp [sanitizeFeatureCollection, sanitizeSpec, h]
  · intro input fc h
    cases input with
    | nullInput => exact absurd h (by simp [sanitizeFeatureCollection])
    | feature f =>
      by_cases hp : isPolygonOrMultiPolygon f
      · simp [sanitizeFeatureCollection, hp] at h
        subst h
        exact ⟨by simp, by simpa using hp⟩
      · simp [sanitizeFeatureCollection, hp] at h
    | collection fs =>
      cases hf : fs.filter isPolygonOrMultiPolygon with
      | nil => simp [sanitizeFeatureCollection, hf] at h
      | cons g rest =>
        simp [sanitizeFeatureCollection, hf] at h
        subst h
        refine ⟨by simp, fun f hmem => ?_⟩
        have : f ∈ fs.filter isPolygonOrMultiPolygon := by rw [hf]; exact hmem
        exact (List.mem_filter.mp this).2
  · intro fs
    cases h : fs.filter isPolygonOrMultiPolygon with
    | nil => simp [sanitizeFeatureCollection, h]
    | cons f rest => simp [sanitizeFeatureCollection, h]
  · intro f hp
    simp [sanitizeFeatureCollection, hp]

/-- Witness for C6 at the mixed Polygon/LineString collection and a single
MultiPolygon feature. -/
theorem sanitizer_totality_and_filtering_witness :
    (sanitizeFeatureCollection (GeoInput.collection
        [⟨0, some GeomType.polygon⟩, ⟨1, some GeomType.lineString⟩])
      = some [⟨0, some GeomType.polygon⟩] ∧
      isPolygonOrMultiPolygon ⟨7, some GeomType.multiPolygon⟩ = true) ∧
    ([⟨0, some GeomType.polygon⟩] ≠ ([] : List Feature) ∧
      ∀ f ∈ [(⟨0, some GeomType.polygon⟩ : Feature)],
        isPolygonOrMultiPolygon f = true) ∧
    sanitizeFeatureCollection (GeoInput.feature ⟨7, some GeomType.multiPolygon⟩)
      = some [⟨7, some GeomType.multiPolygon⟩] := by
  refine ⟨⟨by decide, by decide⟩, ?_, ?_⟩
  · exact sanitizer_totality_and_filtering.2.1
      (GeoInput.collection
        [⟨0, some GeomType.polygon⟩, ⟨1, some GeomType.lineString⟩])
      [⟨0, some GeomType.polygon⟩] (by decide)
  · exact sanitizer_totality_and_filtering.2.2.2.2.2.2.2
      ⟨7, some GeomType.multiPolygon⟩ (by decide)

/-- C2 counterexample: the trace "start selection 0, start selection 1,
selection 0's geometry fetch settles" is valid (0 was started before its
result arrived), its most recent selection is 1, yet the final displayed
geometry belongs to superseded selection 0 — so `staleNeverApplied`, the
claimed guarantee, is false: the asynchronous continuations carry no
staleness check. -/
theorem stale_selection_counterexample :
    validFrom [] [SelEvent.start 0, SelEvent.start 1, SelEvent.geomSuccess 0]
      = true ∧
    lastStarted [SelEvent.start 0, SelEvent.start 1, SelEvent.geomSuccess 0]
      = some 1 ∧
    (runSel [SelEvent.start 0, SelEvent.start 1, SelEvent.geomSuccess 0]).geometry
      = some 0 ∧
    ¬ staleNeverApplied := by
  refine ⟨by decide, by decide, by decide, fun h => ?_⟩
  have h' := h [SelEvent.start 0, SelEvent.start 1, SelEvent.geomSuccess 0] 1
    (by decide) (by decide)
  have hg : (runSel [SelEvent.start 0, SelEvent.start 1,
      SelEvent.geomSuccess 0]).geometry = some 0 := by decide
  rcases h'.1 with h0 | h0 <;> rw [hg] at h0 <;> exact absurd h0 (by decide)

/-- C2 (amended): starting a new selection does synchronously clear the prior
geometry, highlight and water state, but a superseded selection's
late-arriving geometry result is applied unconditionally afterwards, so the
displayed geometry can end up belonging to the superseded selection rather
than the latest one. -/
theorem selection_clear_but_stale_applies :
    (∀ (st : SelState) (s : ℕ),
      (selStep st (SelEvent.start s)).geometry = Option.none ∧
      (selStep st (SelEvent.start s)).highlight = Option.none ∧
      (selStep st (SelEvent.start s)).water = Option.none) ∧
    (∀ (st : SelState) (s : ℕ),
      (selStep st (SelEvent.geomSuccess s)).geometry = some s) ∧
    (∃ (t : List SelEvent) (a b : ℕ), a ≠ b ∧ validFrom [] t = true ∧
      lastStarted t = some b ∧ (runSel t).geometry = some a) := by
  exact ⟨fun st s => ⟨rfl, rfl, rfl⟩, fun st s => rfl,
    ⟨[SelEvent.start 0, SelEvent.start 1, SelEvent.geomSuccess 0], 0, 1,
      by decide, by decide, by decide, by decide⟩⟩

/-- C10: the water-mask fetcher computes the area as
`(north-south)*(east-west)`; above 100 square degrees it skips the query and
yields no water mask, at or below 100 it issues the query; a network or parse
failure yields a null water mask (and, being a total function, never
propagates); the box `(south=-45, west=-90, north=45, east=90)` has area
16200 and triggers no query, while an area-50 box does query. -/
theorem water_mask_area_guard :
    (∀ (south west north east : ℚ) (r : Except Unit (Option (List Feature))),
      100 < (north - south) * (east - west) →
        fetchWaterGeometry (south, west, north, east) r = (false, Option.none)) ∧
    (∀ (south west north east : ℚ) (r : Except Unit (Option (List Feature))),
      (north - south) * (east - west) ≤ 100 →
        (fetchWaterGeometry (south, west, north, east) r).1 = true) ∧
    (∀ (south west north east : ℚ) (e : Unit),
      (fetchWaterGeometry (south, west, north, east) (Except.error e)).2
        = Option.none) ∧
    ((45 : ℚ) - (-45)) * (90 - (-90)) = 16200 ∧
    (∀ r : Except Unit (Option (List Feature)),
      fetchWaterGeometry (-45, -90, 45, 90) r = (false, Option.none)) ∧
    (∀ r : Except Unit (Option (List Feature)),
      ((0 : ℚ) + 5 - 0) * (0 + 10 - 0) = 50 ∧
      (fetchWaterGeometry (0, 0, 0 + 5, 0 + 10) r).1 = true) := by
  have hbig : ∀ (south west north east : ℚ)
      (r : Except Unit (Option (List Feature))),
      100 < (north - south) * (east - west) →
      fetchWaterGeometry (south, west, north, east) r = (false, Option.none) := by
    intro south west north east r h
    simp only [fetchWaterGeometry, gt_iff_lt]
    rw [if_pos h]
  have hsmall : ∀ (south west north east : ℚ)
      (r : Except Unit (Option (List Feature))),
      (north - south) * (east - west) ≤ 100 →
      (fetchWaterGeometry (south, west, north, east) r).1 = true := by
    intro south west north east r h
    simp only [fetchWaterGeometry, gt_iff_lt]
    rw [if_neg (not_lt.mpr h)]
    rcases r with e | d
    · rfl
    · rcases d with _ | fs
      · rfl
      · dsimp only
        by_cases h1 : 0 < fs.length
        · rw [if_pos h1]
          by_cases h2 : 0 < (fs.filter isPolygonOrMultiPolygon).length
          · rw [if_pos h2]
          · rw [if_neg h2]
        · rw [if_neg h1]
  refine ⟨hbig, hsmall, ?_, by norm_num, ?_, ?_⟩
  · intro south west north east e
    simp only [fetchWaterGeometry, gt_iff_lt]
    by_cases h : 100 < (north - south) * (east - west)
    · rw [if_pos h]
    · rw [if_neg h]
  · intro r
    exact hbig (-45) (-90) 45 90 r (by norm_num)
  · intro r
    exact ⟨by norm_num, hsmall 0 0 (0 + 5) (0 + 10) r (by norm_num)⟩

/-- Witness for C10: the oversized box `(south=-45, west=-90, north=45,
east=90)` issues no query and stores no water mask; the 50-square-degree box
`(0, 0, 5, 10)` issues the query. -/
theorem water_mask_area_guard_witness :
    (100 < ((45 : ℚ) - (-45)) * (90 - (-90)) ∧
      fetchWaterGeometry (-45, -90, 45, 90) (Except.ok Option.none)
        = (false, Option.none)) ∧
    (((5 : ℚ) - 0) * (10 - 0) ≤ 100 ∧
      (fetchWaterGeometry (0, 0, 5, 10) (Except.ok Option.none)).1 = true) :=
  ⟨⟨by norm_num,
      water_mask_area_guard.1 (-45) (-90) 45 90 (Except.ok Option.none)
        (by norm_num)⟩,
    ⟨by norm_num,
      water_mask_area_guard.2.1 0 0 5 10 (Except.ok Option.none) (by norm_num)⟩⟩

/-- The zoom levels a run of the cascade loop attempts are exactly the prefix
of the zoom list up to and including the first hit. -/
lemma cascadeLoop_attempted (revResp : ℕ → Except Unit RevResponse) :
    ∀ (zs : List ℕ) (name : Option String) (lastBounds : Option BBox),
      (cascadeLoop revResp zs name lastBounds).1
        = takeThroughFirst (zoomHit revResp) zs := by
  intro zs
  induction zs with
  | nil => intro name lastBounds; rfl
  | cons z rest ih =>
    intro name lastBounds
    cases h : revResp z with
    | error e => simp [cascadeLoop, takeThroughFirst, zoomHit, h, ih]
    | ok r =>
      cases hs : sanitizeFeatureCollection r.body with
      | none => simp [cascadeLoop, takeThroughFirst, zoomHit, h, hs, ih]
      | some fc => simp [cascadeLoop, takeThroughFirst, zoomHit, h, hs]

/-- The cascade loop produces geometry exactly when some zoom level hits. -/
lemma cascadeLoop_hitSome (revResp : ℕ → Except Unit RevResponse) :
    ∀ (zs : List ℕ) (name : Option String) (lastBounds : Option BBox),
      ((cascadeLoop revResp zs name lastBounds).2.2.2).isSome
        = zs.any (zoomHit revResp) := by
  intro zs
  induction zs with
  | nil => intro name lastBounds; rfl
  | cons z rest ih =>
    intro name lastBounds
    cases h : revResp z with
    | error e => simp [cascadeLoop, List.any_cons, zoomHit, h, ih]
    | ok r =>
      cases hs : sanitizeFeatureCollection r.body with
      | none => simp [cascadeLoop, List.any_cons, zoomHit, h, hs, ih]
      | some fc => simp [cascadeLoop, List.any_cons, zoomHit, h, hs]

/-- When no element hits, the cascade visits the whole list. -/
lemma takeThroughFirst_eq_self {p : ℕ → Bool} :
    ∀ {l : List ℕ}, l.any p = false → takeThroughFirst p l = l := by
  intro l
  induction l with
  | nil => intro _; rfl
  | cons z rest ih =>
    intro h
    rw [List.any_cons, Bool.or_eq_false_iff] at h
    simp [takeThroughFirst, h.1, ih h.2]

/-- The name-based fallback reports success exactly when it applied some
geometry (a sanitized polygon collection or a synthesized rectangle). -/
lemma fetchGeometryByName_success_eq (searchResp : String → Except Unit RevResponse)
    (n : Option String) (fb : Option BBox) :
    (fetchGeometryByName searchResp n fb).success
      = (fetchGeometryByName searchResp n fb).applied.isSome := by
  unfold fetchGeometryByName
  cases n with
  | none => rfl
  | some n =>
    dsimp only
    cases hr : searchResp n with
    | error e => rfl
    | ok r =>
      dsimp only
      cases hs : sanitizeFeatureCollection r.body with
      | some fc => simp [hs]
      | none =>
        cases ho : r.bounds.orElse (fun _ => fb) with
        | some b => simp [hs, ho]
        | none => simp [hs, ho]

/-- C5: the geometry resolver queries reverse geocoding at zoom levels
`[14, 12, 10, 8]` in order, stopping at the first level whose response
sanitizes to polygon geometry (`takeThroughFirst`); a thrown failure at a
level is never a hit, so the cascade proceeds past it; success coincides with
having applied some geometry; and a failure outcome means all four levels
were attempted and nothing was applied (every fallback exhausted). -/
theorem geometry_cascade (revResp : ℕ → Except Unit RevResponse)
    (coarseResp : Except Unit (Option String))
    (searchResp : String → Except Unit RevResponse)
    (fallbackBounds : Option BBox) :
    (fetchCountryGeometry revResp coarseResp searchResp fallbackBounds).attempted
        = takeThroughFirst (zoomHit revResp) zoomLevels ∧
    (∀ z e, revResp z = Except.error e → zoomHit revResp z = false) ∧
    ((fetchCountryGeometry revResp coarseResp searchResp fallbackBounds).success
        = (fetchCountryGeometry revResp coarseResp searchResp fallbackBounds).applied.isSome) ∧
    ((fetchCountryGeometry revResp coarseResp searchResp fallbackBounds).success = false →
      (fetchCountryGeometry revResp coarseResp searchResp fallbackBounds).attempted = zoomLevels ∧
      (fetchCountryGeometry revResp coarseResp searchResp fallbackBounds).applied = Option.none) := by
  have hatt : (fetchCountryGeometry revResp coarseResp searchResp fallbackBounds).attempted
      = (cascadeLoop revResp zoomLevels Option.none fallbackBounds).1 := by
    unfold fetchCountryGeometry
    dsimp only
    cases hres : (cascadeLoop revResp zoomLevels Option.none fallbackBounds).2.2.2 with
    | none => rfl
    | some p => cases p with | mk fc b => rfl
  have hsucc : (fetchCountryGeometry revResp coarseResp searchResp fallbackBounds).success
      = (fetchCountryGeometry revResp coarseResp searchResp fallbackBounds).applied.isSome := by
    unfold fetchCountryGeometry
    dsimp only
    cases hres : (cascadeLoop revResp zoomLevels Option.none fallbackBounds).2.2.2 with
    | none => exact fetchGeometryByName_success_eq searchResp _ _
    | some p => cases p with | mk fc b => rfl
  have hnone : (fetchCountryGeometry revResp coarseResp searchResp fallbackBounds).success = false →
      (cascadeLoop revResp zoomLevels Option.none fallbackBounds).2.2.2 = Option.none := by
    intro hf
    cases hres : (cascadeLoop revResp zoomLevels Option.none fallbackBounds).2.2.2 with
    | none => rfl
    | some p =>
      exfalso
      cases p with | mk fc b =>
      unfold fetchCountryGeometry at hf
      dsimp only at hf
      rw [hres] at hf
      exact Bool.noConfusion hf
  refine ⟨?_, ?_, hsucc, ?_⟩
  · rw [hatt]
    exact cascadeLoop_attempted revResp zoomLevels Option.none fallbackBounds
  · intro z e h
    simp [zoomHit, h]
  · intro hf
    have hres := hnone hf
    have hany : zoomLevels.any (zoomHit revResp) = false := by
      rw [← cascadeLoop_hitSome revResp zoomLevels Option.none fallbackBounds, hres]
      rfl
    refine ⟨?_, ?_⟩
    · rw [hatt, cascadeLoop_attempted revResp zoomLevels Option.none fallbackBounds]
      exact takeThroughFirst_eq_self hany
    · have := hsucc
      rw [hf] at this
      cases happl : (fetchCountryGeometry revResp coarseResp searchResp fallbackBounds).applied with
      | none => rfl
      | some x => rw [happl] at this; exact absurd this.symm (by simp)

/-- Witness for C5: with every reverse-geocode attempt failing, no coarse
name and a failing forward search, the resolver attempts all four zoom levels
in order, applies no geometry and reports failure. -/
theorem geometry_cascade_witness :
    (fetchCountryGeometry (fun _ => Except.error ()) (Except.ok Option.none)
        (fun _ => Except.error ()) Option.none).success = false ∧
    (fetchCountryGeometry (fun _ => Except.error ()) (Except.ok Option.none)
        (fun _ => Except.error ()) Option.none).attempted = zoomLevels ∧
    (fetchCountryGeometry (fun _ => Except.error ()) (Except.ok Option.none)
        (fun _ => Except.error ()) Option.none).applied = Option.none := by
  have h := geometry_cascade (fun _ => Except.error ()) (Except.ok Option.none)
    (fun _ => Except.error ()) Option.none
  have hs : (fetchCountryGeometry (fun _ => Except.error ()) (Except.ok Option.none)
      (fun _ => Except.error ()) Option.none).success = false := rfl
  exact ⟨hs, (h.2.2.2 hs).1, (h.2.2.2 hs).2⟩

end Terra

